import Mathlib

/-!
Verification of the issue-processing pipeline of the lyric-checker bot
(`src/scripts/lyric_checker_bot/src/main.rs`).

The pipeline is embedded shallowly: the external collaborators (the GitHub
client in `github_api.rs`, the `ttml_processor` document engine, the HTTP
client and the standard-library numeric parsers) are abstracted as an `Env`
record of oracles, and `process_issue` is a pure function from an `Env` and
an `Issue` to a result together with a trace of the observable effects
(tracker API calls, document fetch, and document-engine invocations), in the
order the Rust code performs them.
-/

/-- A timed lyric line, as produced by the document engine.  Only the
`start_ms` field is inspected by the bot itself (as the sort key); the other
fields stand for the rest of the line payload. -/
structure Line where
  start_ms : Nat
  end_ms : Nat
  text : String
deriving DecidableEq, Repr

/-- Result of a successful parse: timed lines, raw metadata entries and
non-fatal warnings. -/
structure ParsedData where
  lines : List Line
  raw_metadata : List (String × String)
  warnings : List String
deriving DecidableEq, Repr

/-- Timing mode for generation (`TtmlTimingMode` in `ttml_processor`). -/
inductive TtmlTimingMode where
  | Line
  | Word
deriving DecidableEq, Repr

/-- Options for the syllable smoothing transform. -/
structure SyllableSmoothingOptions where
  factor : Rat
  duration_threshold_ms : Nat
  gap_threshold_ms : Nat
  smoothing_iterations : Nat
deriving DecidableEq, Repr

/-- The generation options constructed by `process_issue`.  The Rust struct
has further fields, but they are filled by `..Default::default()` in both
constructions, so only the four fields the bot sets explicitly are modelled. -/
structure TtmlGenerationOptions where
  timing_mode : TtmlTimingMode
  format : Bool
  auto_word_splitting : Bool
  punctuation_weight : Rat
deriving DecidableEq, Repr

/-- The deduplicated metadata store, abstracted as a key to values mapping. -/
abbrev MetadataStore := List (String × List String)

/-- An issue snapshot: number, title, and optional free-text body
(`octocrab` models the body as `Option<String>`). -/
structure Issue where
  number : Nat
  title : String
  body : Option String
deriving DecidableEq, Repr

/-- Observable effects of processing one issue, in program order:
tracker API calls, the document fetch, and document-engine invocations. -/
inductive Effect where
  | checkPr (issue : Nat)
  | checkComment (issue : Nat)
  | fetch (url : String)
  | parseCall (content : String)
  | smoothCall (lines : List Line) (options : SyllableSmoothingOptions)
  | validateCall (lines : List Line) (store : MetadataStore)
  | generateCall (lines : List Line) (store : MetadataStore)
      (options : TtmlGenerationOptions)
  | postDecline (issue : Nat) (message : String) (content : String)
  | postSuccessPr (issue : Nat) (original : String) (compact : String)
      (formatted : String) (remarks : String)
deriving DecidableEq, Repr

/-- The external collaborators, as oracles.  Fallible calls return
`Except String` mirroring `anyhow::Result`; `validate_lyrics_and_metadata`
returns its error messages, mirroring `Result<(), Vec<String>>`. -/
structure Env where
  pr_for_issue_exists : Nat → Except String Bool
  has_bot_commented : Nat → Except String Bool
  parse_issue_body : String → List (String × String)
  http_get : String → Except String String
  parse_ttml_content : String → Except String ParsedData
  apply_smoothing : List Line → SyllableSmoothingOptions → List Line
  load_metadata : List (String × String) → MetadataStore
  validate_lyrics_and_metadata : List Line → MetadataStore → Except (List String) Unit
  generate_ttml : List Line → MetadataStore → TtmlGenerationOptions → Except String String
  post_decline_comment : Nat → String → String → Except String Unit
  post_success_and_create_pr : Nat → String → String → String → String → Except String Unit
  parse_f64 : String → Option Rat
  parse_u64 : String → Option Nat
  parse_usize : String → Option Nat

/-- `HashMap::get` on the parameter map, as an association-list lookup. -/
def lookup (body_params : List (String × String)) (key : String) : Option String :=
  (body_params.find? (fun p => p.fst == key)).map Prod.snd

/-- The Rust `str::contains` substring test: the needle occurs contiguously in
the haystack. -/
def str_contains (haystack needle : String) : Bool :=
  decide (needle.toList <:+: haystack.toList)

/-- The label of the required document-URL field. -/
def url_field : String := "TTML 歌词文件下载直链"

/-- The decline message posted when no usable document URL is found. -/
def no_url_message : String := "无法在 Issue 中找到有效的“TTML 歌词文件下载直链”。"

/-- Marker in the feature-switches field that opts in to smoothing. -/
def smoothing_marker : String := "启用平滑优化"

/-- Marker in the feature-switches field that opts in to auto word splitting. -/
def auto_split_marker : String := "启用自动分词"

/-- Marker in the lyric-options field that selects line timing mode. -/
def line_mode_marker : String := "这是逐行歌词"

/-- The `get_param!` helper of the source: look a field up, treat empty or `_No response_`
as absent, try to parse, fall back to the default. -/
def get_param {α : Type} (parse : String → Option α)
    (body_params : List (String × String)) (key : String) (default : α) : α :=
  ((lookup body_params key).bind (fun s =>
    if s = "" ∨ s = "_No response_" then none else parse s)).getD default

/-- Resolution of the optional smoothing options, with the documented
numeric defaults, exactly as in `process_issue`. -/
def resolve_smoothing_options (parse_f64 : String → Option Rat)
    (parse_u64 : String → Option Nat) (parse_usize : String → Option Nat)
    (body_params : List (String × String)) (enable_smoothing : Bool) :
    Option SyllableSmoothingOptions :=
  if enable_smoothing then
    some
      { factor := get_param parse_f64 body_params "[平滑] 平滑因子" 0.15
        duration_threshold_ms :=
          get_param parse_u64 body_params "[平滑] 分组时长差异阈值 (毫秒)" 50
        gap_threshold_ms :=
          get_param parse_u64 body_params "[平滑] 分组间隔阈值 (毫秒)" 100
        smoothing_iterations := get_param parse_usize body_params "[平滑] 迭代次数" 5 }
  else none

/-- Resolution of the punctuation weight: defaults to `0.3`, looked up only
when auto splitting is enabled. -/
def resolve_punctuation_weight (parse_f64 : String → Option Rat)
    (body_params : List (String × String)) (auto_split : Bool) : Rat :=
  if auto_split then get_param parse_f64 body_params "[分词] 标点符号权重" 0.3
  else 0.3

/-- Stable insertion into a list sorted by `key`: `x` is placed before the
first element whose key is not strictly below `key x`. -/
def insert_by_key {α : Type} (key : α → Nat) (x : α) : List α → List α
  | [] => [x]
  | y :: ys => if key y < key x then y :: insert_by_key key x ys else x :: y :: ys

/-- The Rust stable `sort_by_key` method, as a stable insertion sort. -/
def sort_by_key {α : Type} (key : α → Nat) : List α → List α
  | [] => []
  | x :: xs => insert_by_key key x (sort_by_key key xs)

/-- The optional smoothing step: applies the transform when options were
resolved, and leaves the lines untouched otherwise. -/
def transform_step (apply : List Line → SyllableSmoothingOptions → List Line)
    (smoothing_options : Option SyllableSmoothingOptions) (lines : List Line) :
    List Line :=
  match smoothing_options with
  | some options => apply lines options
  | none => lines

/-- The feature-switches field text (empty when absent). -/
def issue_toggles (body_params : List (String × String)) : String :=
  (lookup body_params "功能开关").getD ""

/-- Whether smoothing was opted in. -/
def issue_enable_smoothing (body_params : List (String × String)) : Bool :=
  str_contains (issue_toggles body_params) smoothing_marker

/-- Whether auto word splitting was opted in. -/
def issue_auto_split (body_params : List (String × String)) : Bool :=
  str_contains (issue_toggles body_params) auto_split_marker

/-- The timing mode derived from the lyric-options field. -/
def issue_timing_mode (body_params : List (String × String)) : TtmlTimingMode :=
  if str_contains ((lookup body_params "歌词选项").getD "") line_mode_marker then
    TtmlTimingMode.Line
  else TtmlTimingMode.Word

/-- The resolved smoothing options for an issue body. -/
def issue_smoothing_options (env : Env) (body_params : List (String × String)) :
    Option SyllableSmoothingOptions :=
  resolve_smoothing_options env.parse_f64 env.parse_u64 env.parse_usize body_params
    (issue_enable_smoothing body_params)

/-- The resolved punctuation weight for an issue body. -/
def issue_punctuation_weight (env : Env) (body_params : List (String × String)) : Rat :=
  resolve_punctuation_weight env.parse_f64 body_params (issue_auto_split body_params)

/-- Posting a decline comment: records the effect, then propagates any
tracker API failure (`.await?`). -/
def post_decline_step (env : Env) (issue_number : Nat) (message content : String)
    (t : List Effect) : Except String Unit × List Effect :=
  let t2 := t ++ [Effect.postDecline issue_number message content]
  match env.post_decline_comment issue_number message content with
  | Except.error e => (Except.error e, t2)
  | Except.ok _ => (Except.ok (), t2)

/-- The per-issue pipeline of `process_issue` in `main.rs`: idempotency gate,
parameter extraction, fetch, parse, sort, optional smoothing, metadata
assembly, validation, dual generation, and reporting. -/
def process_issue (env : Env) (issue : Issue) : Except String Unit × List Effect :=
  let t0 := [Effect.checkPr issue.number]
  match env.pr_for_issue_exists issue.number with
  | Except.error e => (Except.error e, t0)
  | Except.ok true => (Except.ok (), t0)
  | Except.ok false =>
    let t1 := t0 ++ [Effect.checkComment issue.number]
    match env.has_bot_commented issue.number with
    | Except.error e => (Except.error e, t1)
    | Except.ok true => (Except.ok (), t1)
    | Except.ok false =>
      let issue_body := issue.body.getD ""
      let body_params := env.parse_issue_body issue_body
      let ttml_url_opt :=
        match lookup body_params url_field with
        | some url => if url = "" then none else some url
        | none => none
      match ttml_url_opt with
      | none => post_decline_step env issue.number no_url_message "" t1
      | some ttml_url =>
        let remarks := (lookup body_params "备注").getD ""
        let timing_mode := issue_timing_mode body_params
        let auto_split := issue_auto_split body_params
        let smoothing_options := issue_smoothing_options env body_params
        let punctuation_weight := issue_punctuation_weight env body_params
        let t2 := t1 ++ [Effect.fetch ttml_url]
        match env.http_get ttml_url with
        | Except.error e => (Except.error e, t2)
        | Except.ok original_ttml_content =>
          let t3 := t2 ++ [Effect.parseCall original_ttml_content]
          match env.parse_ttml_content original_ttml_content with
          | Except.error e =>
            post_decline_step env issue.number
              ("解析 TTML 文件失败: `" ++ e ++ "`") original_ttml_content t3
          | Except.ok parsed_data =>
            let sorted_lines := sort_by_key Line.start_ms parsed_data.lines
            let lines := transform_step env.apply_smoothing smoothing_options sorted_lines
            let t4 := t3 ++
              (match smoothing_options with
               | some options => [Effect.smoothCall sorted_lines options]
               | none => [])
            let metadata_store := env.load_metadata parsed_data.raw_metadata
            let t5 := t4 ++ [Effect.validateCall lines metadata_store]
            match env.validate_lyrics_and_metadata lines metadata_store with
            | Except.error errors =>
              post_decline_step env issue.number
                ("文件验证失败:\n- " ++ String.intercalate "\n- " errors)
                original_ttml_content t5
            | Except.ok _ =>
              let compact_gen_opts : TtmlGenerationOptions :=
                { timing_mode := timing_mode, format := false
                  auto_word_splitting := auto_split
                  punctuation_weight := punctuation_weight }
              let t6 := t5 ++ [Effect.generateCall lines metadata_store compact_gen_opts]
              match env.generate_ttml lines metadata_store compact_gen_opts with
              | Except.error e => (Except.error e, t6)
              | Except.ok compact_ttml =>
                let formatted_gen_opts : TtmlGenerationOptions :=
                  { timing_mode := timing_mode, format := true
                    auto_word_splitting := auto_split
                    punctuation_weight := punctuation_weight }
                let t7 :=
                  t6 ++ [Effect.generateCall lines metadata_store formatted_gen_opts]
                match env.generate_ttml lines metadata_store formatted_gen_opts with
                | Except.error e => (Except.error e, t7)
                | Except.ok formatted_ttml =>
                  let t8 := t7 ++
                    [Effect.postSuccessPr issue.number original_ttml_content
                      compact_ttml formatted_ttml remarks]
                  match env.post_success_and_create_pr issue.number
                      original_ttml_content compact_ttml formatted_ttml remarks with
                  | Except.error e => (Except.error e, t8)
                  | Except.ok _ => (Except.ok (), t8)

/-- The orchestrator loop in `main`: every issue is processed in order, and
an `Err` result from one issue is only logged (`if let Err`), never
propagated, so the remaining issues are still attempted. -/
def main_loop (env : Env) : List Issue → List (Except String Unit × List Effect)
  | [] => []
  | issue :: rest => process_issue env issue :: main_loop env rest

/-- Projection of a trace onto its generation calls, keeping their
arguments in order. -/
def generate_calls : List Effect → List (List Line × MetadataStore × TtmlGenerationOptions)
  | [] => []
  | Effect.generateCall l m o :: rest => (l, m, o) :: generate_calls rest
  | _ :: rest => generate_calls rest

/-- Projection of a trace onto its decline comments (issue, message,
attached content), in order. -/
def decline_calls : List Effect → List (Nat × String × String)
  | [] => []
  | Effect.postDecline n m ct :: rest => (n, m, ct) :: decline_calls rest
  | _ :: rest => decline_calls rest

/-- Projection of a trace onto its success-and-change-request reports. -/
def success_calls : List Effect → List Nat
  | [] => []
  | Effect.postSuccessPr n _ _ _ _ :: rest => n :: success_calls rest
  | _ :: rest => success_calls rest

/-- Whether a field is treated as absent by `get_param`: missing, empty,
the `_No response_` placeholder, or unparsable. -/
def field_absent {α : Type} (parse : String → Option α)
    (body_params : List (String × String)) (key : String) : Prop :=
  lookup body_params key = none ∨ lookup body_params key = some ""
    ∨ lookup body_params key = some "_No response_"
    ∨ ∃ s, lookup body_params key = some s ∧ parse s = none

/-! Concrete instances, used to evaluate the theorems on closed inputs. -/

/-- A concrete lyric line. -/
def lineA : Line := { start_ms := 100, end_ms := 200, text := "a" }

/-- A concrete lyric line starting earlier than `lineA`. -/
def lineB : Line := { start_ms := 50, end_ms := 150, text := "b" }

/-- A concrete parse result with out-of-order lines. -/
def pd1 : ParsedData :=
  { lines := [lineA, lineB], raw_metadata := [("musicName", "Song")], warnings := [] }

/-- A concrete issue with a body. -/
def issue1 : Issue := { number := 1, title := "提交", body := some "body" }

/-- A concrete environment on the success path: the gate is open, the body
has a document URL, and every collaborator call succeeds. -/
def env0 : Env where
  pr_for_issue_exists := fun _ => Except.ok false
  has_bot_commented := fun _ => Except.ok false
  parse_issue_body := fun _ => [(url_field, "http://example.com/a.ttml")]
  http_get := fun _ => Except.ok "<tt/>"
  parse_ttml_content := fun _ => Except.ok pd1
  apply_smoothing := fun lines _ => lines
  load_metadata := fun _ => [("musicName", ["Song"])]
  validate_lyrics_and_metadata := fun _ _ => Except.ok ()
  generate_ttml := fun _ _ o => Except.ok (if o.format then "formatted" else "compact")
  post_decline_comment := fun _ _ _ => Except.ok ()
  post_success_and_create_pr := fun _ _ _ _ _ => Except.ok ()
  parse_f64 := fun _ => none
  parse_u64 := fun _ => none
  parse_usize := fun _ => none

/-- `env0` with a change request already linked to every issue. -/
def env_pr : Env := { env0 with pr_for_issue_exists := fun _ => Except.ok true }

/-- `env0` with a prior bot comment on every issue. -/
def env_commented : Env := { env0 with has_bot_commented := fun _ => Except.ok true }

/-- `env0` with an issue body yielding no recognized fields. -/
def env_nourl : Env := { env0 with parse_issue_body := fun _ => [] }

/-- `env0` whose validation always reports two errors. -/
def env_valfail : Env :=
  { env0 with validate_lyrics_and_metadata := fun _ _ => Except.error ["错误一", "错误二"] }

/-- `env0` whose change-request existence check fails with an API error. -/
def env_prfail : Env :=
  { env0 with pr_for_issue_exists := fun _ => Except.error "api down" }

/-! ### Properties of the stable sort -/

theorem insert_by_key_perm {α : Type} (key : α → Nat) (x : α) (l : List α) :
    (insert_by_key key x l).Perm (x :: l) := by
  induction l with
  | nil => simp [insert_by_key]
  | cons y ys ih =>
    simp only [insert_by_key]
    by_cases h : key y < key x
    · simp only [if_pos h]
      exact (ih.cons y).trans (List.Perm.swap x y ys)
    · simp [if_neg h]

theorem insert_by_key_sorted {α : Type} (key : α → Nat) (x : α) (l : List α)
    (h : l.Pairwise (fun a b => key a ≤ key b)) :
    (insert_by_key key x l).Pairwise (fun a b => key a ≤ key b) := by
  induction l with
  | nil => simp [insert_by_key]
  | cons y ys ih =>
    simp only [List.pairwise_cons] at h
    obtain ⟨hy, hys⟩ := h
    simp only [insert_by_key]
    by_cases hlt : key y < key x
    · simp only [if_pos hlt, List.pairwise_cons]
      refine ⟨?_, ih hys⟩
      intro b hb
      have hb2 : b ∈ x :: ys := ((insert_by_key_perm key x ys).mem_iff).mp hb
      rcases List.mem_cons.mp hb2 with rfl | hbys
      · exact Nat.le_of_lt hlt
      · exact hy b hbys
    · simp only [if_neg hlt, List.pairwise_cons]
      refine ⟨?_, hy, hys⟩
      intro b hb
      rcases List.mem_cons.mp hb with rfl | hbys
      · exact Nat.le_of_not_lt hlt
      · exact Nat.le_trans (Nat.le_of_not_lt hlt) (hy b hbys)

theorem sort_by_key_perm {α : Type} (key : α → Nat) (l : List α) :
    (sort_by_key key l).Perm l := by
  induction l with
  | nil => simp [sort_by_key]
  | cons x xs ih =>
    exact (insert_by_key_perm key x (sort_by_key key xs)).trans (ih.cons x)

theorem sort_by_key_sorted {α : Type} (key : α → Nat) (l : List α) :
    (sort_by_key key l).Pairwise (fun a b => key a ≤ key b) := by
  induction l with
  | nil => simp [sort_by_key]
  | cons x xs ih => exact insert_by_key_sorted key x _ ih

theorem insert_by_key_filter_eq {α : Type} (key : α → Nat) (x : α) (l : List α)
    (k : Nat) (hx : key x = k) :
    (insert_by_key key x l).filter (fun a => key a == k)
      = x :: l.filter (fun a => key a == k) := by
  have hxb : (key x == k) = true := by simp [hx]
  induction l with
  | nil => simp [insert_by_key, List.filter_cons, hxb]
  | cons y ys ih =>
    simp only [insert_by_key]
    by_cases hlt : key y < key x
    · have hyb : (key y == k) = false := by
        subst hx
        simp [Nat.ne_of_lt hlt]
      simp [if_pos hlt, List.filter_cons, hyb, ih]
    · simp [if_neg hlt, List.filter_cons, hxb]

theorem insert_by_key_filter_ne {α : Type} (key : α → Nat) (x : α) (l : List α)
    (k : Nat) (hx : key x ≠ k) :
    (insert_by_key key x l).filter (fun a => key a == k)
      = l.filter (fun a => key a == k) := by
  have hxb : (key x == k) = false := by simp [hx]
  induction l with
  | nil => simp [insert_by_key, List.filter_cons, hxb]
  | cons y ys ih =>
    simp only [insert_by_key]
    by_cases hlt : key y < key x
    · simp [if_pos hlt, List.filter_cons, ih]
    · simp [if_neg hlt, List.filter_cons, hxb]

theorem sort_by_key_stable {α : Type} (key : α → Nat) (l : List α) (k : Nat) :
    (sort_by_key key l).filter (fun a => key a == k)
      = l.filter (fun a => key a == k) := by
  induction l with
  | nil => simp [sort_by_key]
  | cons x xs ih =>
    simp only [sort_by_key]
    by_cases hx : key x = k
    · have hxb : (key x == k) = true := by simp [hx]
      rw [insert_by_key_filter_eq key x _ k hx, ih, List.filter_cons]
      simp [hxb]
    · have hxb : (key x == k) = false := by simp [hx]
      rw [insert_by_key_filter_ne key x _ k hx, ih, List.filter_cons]
      simp [hxb]

/-- C3: after the normalization step the line sequence is a permutation of
the input that is nondecreasing by start time, and lines with equal start
times keep their original relative order (the sort is stable). -/
theorem c3_sort_normalizes (l : List Line) :
    (sort_by_key Line.start_ms l).Pairwise (fun a b => a.start_ms ≤ b.start_ms)
    ∧ (sort_by_key Line.start_ms l).Perm l
    ∧ ∀ k, (sort_by_key Line.start_ms l).filter (fun a => a.start_ms == k)
        = l.filter (fun a => a.start_ms == k) :=
  ⟨sort_by_key_sorted Line.start_ms l, sort_by_key_perm Line.start_ms l,
    fun k => sort_by_key_stable Line.start_ms l k⟩

/-! ### Properties of the validation decline message -/

theorem intercalate_go_split (s : String) (as : List String) (acc : String) :
    ∃ r, String.intercalate.go acc s as = acc ++ r := by
  induction as generalizing acc with
  | nil =>
    refine ⟨"", ?_⟩
    simp [String.intercalate.go]
  | cons a as ih =>
    obtain ⟨r, hr⟩ := ih (acc ++ s ++ a)
    refine ⟨s ++ a ++ r, ?_⟩
    show String.intercalate.go (acc ++ s ++ a) s as = _
    rw [hr]
    simp [String.append_assoc]

theorem intercalate_go_bullet (s e : String) (as : List String) (acc : String)
    (he : e ∈ as) :
    ∃ p q, String.intercalate.go acc s as = p ++ (s ++ e) ++ q := by
  induction as generalizing acc with
  | nil => cases he
  | cons a as ih =>
    rcases List.mem_cons.mp he with rfl | hmem
    · obtain ⟨r, hr⟩ := intercalate_go_split s as (acc ++ s ++ e)
      refine ⟨acc, r, ?_⟩
      show String.intercalate.go (acc ++ s ++ e) s as = _
      rw [hr]
      simp [String.append_assoc]
    · exact ih (acc ++ s ++ a) hmem

theorem validation_message_bullet (errors : List String) (e : String)
    (he : e ∈ errors) :
    ∃ p q, "文件验证失败:\n- " ++ String.intercalate "\n- " errors
      = p ++ ("\n- " ++ e) ++ q := by
  cases errors with
  | nil => cases he
  | cons a as =>
    rcases List.mem_cons.mp he with rfl | hmem
    · obtain ⟨r, hr⟩ := intercalate_go_split "\n- " as e
      refine ⟨"文件验证失败:", r, ?_⟩
      show "文件验证失败:\n- " ++ String.intercalate.go e "\n- " as = _
      rw [hr]
      show ("文件验证失败:" ++ "\n- ") ++ (e ++ r) = "文件验证失败:" ++ ("\n- " ++ e) ++ r
      rw [String.append_assoc, String.append_assoc, String.append_assoc]
    · obtain ⟨p, q, h⟩ := intercalate_go_bullet "\n- " e as a hmem
      refine ⟨"文件验证失败:\n- " ++ p, q, ?_⟩
      show "文件验证失败:\n- " ++ String.intercalate.go a "\n- " as = _
      rw [h]
      simp [String.append_assoc]

/-! ### Parameter defaulting -/

theorem get_param_default {α : Type} (parse : String → Option α)
    (body_params : List (String × String)) (key : String) (default : α)
    (h : field_absent parse body_params key) :
    get_param parse body_params key default = default := by
  rcases h with h | h | h | ⟨s, hs, hp⟩
  · simp [get_param, h]
  · simp [get_param, h]
  · simp [get_param, h]
  · rw [get_param, hs]
    show (if s = "" ∨ s = "_No response_" then none else parse s).getD default = default
    split
    · rfl
    · simp [hp]

/-- C4: every numeric sub-parameter that is missing, empty, the
`_No response_` placeholder, or unparsable resolves independently to its
documented default (factor 0.15, duration threshold 50, gap threshold 100,
iterations 5, punctuation weight 0.3), and resolution is a total function
(it never raises an error). -/
theorem c4_numeric_defaults (parse_f64 : String → Option Rat)
    (parse_u64 parse_usize : String → Option Nat)
    (body_params : List (String × String)) :
    (field_absent parse_f64 body_params "[平滑] 平滑因子" →
      (resolve_smoothing_options parse_f64 parse_u64 parse_usize body_params true).map
        SyllableSmoothingOptions.factor = some 0.15)
    ∧ (field_absent parse_u64 body_params "[平滑] 分组时长差异阈值 (毫秒)" →
      (resolve_smoothing_options parse_f64 parse_u64 parse_usize body_params true).map
        SyllableSmoothingOptions.duration_threshold_ms = some 50)
    ∧ (field_absent parse_u64 body_params "[平滑] 分组间隔阈值 (毫秒)" →
      (resolve_smoothing_options parse_f64 parse_u64 parse_usize body_params true).map
        SyllableSmoothingOptions.gap_threshold_ms = some 100)
    ∧ (field_absent parse_usize body_params "[平滑] 迭代次数" →
      (resolve_smoothing_options parse_f64 parse_u64 parse_usize body_params true).map
        SyllableSmoothingOptions.smoothing_iterations = some 5)
    ∧ (field_absent parse_f64 body_params "[分词] 标点符号权重" →
      resolve_punctuation_weight parse_f64 body_params true = 0.3)
    ∧ resolve_punctuation_weight parse_f64 body_params false = 0.3 := by
  refine ⟨?_, ?_, ?_, ?_, ?_, ?_⟩
  · intro h
    simp [resolve_smoothing_options, get_param_default _ _ _ _ h]
  · intro h
    simp [resolve_smoothing_options, get_param_default _ _ _ _ h]
  · intro h
    simp [resolve_smoothing_options, get_param_default _ _ _ _ h]
  · intro h
    simp [resolve_smoothing_options, get_param_default _ _ _ _ h]
  · intro h
    simp [resolve_punctuation_weight, get_param_default _ _ _ _ h]
  · simp [resolve_punctuation_weight]

/-- Witness for C4 at a concrete empty parameter map and always-failing
parsers. -/
theorem c4_numeric_defaults_witness :
    (resolve_smoothing_options (fun _ => none) (fun _ => none) (fun _ => none)
        ([] : List (String × String)) true).map SyllableSmoothingOptions.factor
      = some 0.15
    ∧ (resolve_smoothing_options (fun _ => none) (fun _ => none) (fun _ => none)
        ([] : List (String × String)) true).map
          SyllableSmoothingOptions.duration_threshold_ms = some 50
    ∧ (resolve_smoothing_options (fun _ => none) (fun _ => none) (fun _ => none)
        ([] : List (String × String)) true).map
          SyllableSmoothingOptions.gap_threshold_ms = some 100
    ∧ (resolve_smoothing_options (fun _ => none) (fun _ => none) (fun _ => none)
        ([] : List (String × String)) true).map
          SyllableSmoothingOptions.smoothing_iterations = some 5
    ∧ resolve_punctuation_weight (fun _ => none) ([] : List (String × String)) true
      = 0.3 :=
  have h := c4_numeric_defaults (fun _ => none) (fun _ => none) (fun _ => none) []
  ⟨h.1 (Or.inl rfl), h.2.1 (Or.inl rfl), h.2.2.1 (Or.inl rfl), h.2.2.2.1 (Or.inl rfl),
    h.2.2.2.2.1 (Or.inl rfl)⟩

/-! ### The orchestrator pass -/

/-- C8: the orchestrator pass decomposes positionally: the entry for each
issue is exactly the result of processing that issue, regardless of whether
processing of any earlier issue returned an error — the `if let Err` boundary
only logs, so every subsequent issue is still attempted. -/
theorem c8_failures_isolated (env : Env) (pre : List Issue) (issue : Issue)
    (post : List Issue) :
    main_loop env (pre ++ issue :: post)
      = main_loop env pre ++ process_issue env issue :: main_loop env post
    ∧ (main_loop env (pre ++ issue :: post)).length
      = pre.length + 1 + post.length := by
  constructor
  · induction pre with
    | nil => simp [main_loop]
    | cons a as ih => simp [main_loop, ih]
  · have hlen : ∀ l : List Issue, (main_loop env l).length = l.length := by
      intro l
      induction l with
      | nil => rfl
      | cons a as ih => simp [main_loop, ih]
    simp [hlen]
    omega

/-! ### The idempotency gate -/

/-- C1: an issue that already has a linked change request, or (failing that)
a prior bot comment, is a no-op: the result is success and the trace holds
nothing but the existence check(s) — no comment, no change request, no
fetch, no engine call. -/
theorem c1_gate_noop (env : Env) (issue : Issue)
    (h : env.pr_for_issue_exists issue.number = Except.ok true
      ∨ (env.pr_for_issue_exists issue.number = Except.ok false
        ∧ env.has_bot_commented issue.number = Except.ok true)) :
    process_issue env issue = (Except.ok (), [Effect.checkPr issue.number])
    ∨ process_issue env issue
      = (Except.ok (), [Effect.checkPr issue.number, Effect.checkComment issue.number]) := by
  rcases h with h1 | ⟨h1, h2⟩
  · left
    simp [process_issue, h1]
  · right
    simp [process_issue, h1, h2]

/-- Witness for C1: with a linked change request, processing issue 1 stops
after the first existence check. -/
theorem c1_gate_noop_witness :
    process_issue env_pr issue1 = (Except.ok (), [Effect.checkPr 1])
    ∨ process_issue env_pr issue1
      = (Except.ok (), [Effect.checkPr 1, Effect.checkComment 1]) :=
  c1_gate_noop env_pr issue1 (Or.inl rfl)

/-- C2: with an open gate but no usable document-URL field (missing or
empty), the outcome is a decline, not an error: the result is success and
the trace is exactly the two checks plus one decline comment whose text is
the no-valid-URL message and whose attached content is empty — nothing is
fetched, parsed, validated or generated, and no change request is created. -/
theorem c2_missing_url_decline (env : Env) (issue : Issue)
    (h1 : env.pr_for_issue_exists issue.number = Except.ok false)
    (h2 : env.has_bot_commented issue.number = Except.ok false)
    (h3 : lookup (env.parse_issue_body (issue.body.getD "")) url_field = none
      ∨ lookup (env.parse_issue_body (issue.body.getD "")) url_field = some "")
    (h4 : env.post_decline_comment issue.number no_url_message "" = Except.ok ()) :
    process_issue env issue
      = (Except.ok (), [Effect.checkPr issue.number, Effect.checkComment issue.number,
          Effect.postDecline issue.number no_url_message ""]) := by
  rcases h3 with h3 | h3 <;>
    simp [process_issue, post_decline_step, h1, h2, h3, h4]

/-- Witness for C2: a body with no recognized fields leads to the
no-valid-URL decline on issue 1. -/
theorem c2_missing_url_decline_witness :
    process_issue env_nourl issue1
      = (Except.ok (), [Effect.checkPr 1, Effect.checkComment 1,
          Effect.postDecline 1 no_url_message ""]) :=
  c2_missing_url_decline env_nourl issue1 rfl rfl (Or.inl rfl) rfl

/-- C9: an issue with no body at all is processed exactly like an issue with
an empty body, and when the empty body yields no document-URL field the
outcome is the missing-URL decline. -/
theorem c9_absent_body (env : Env) (n : Nat) (title : String)
    (h1 : env.pr_for_issue_exists n = Except.ok false)
    (h2 : env.has_bot_commented n = Except.ok false)
    (h3 : lookup (env.parse_issue_body "") url_field = none)
    (h4 : env.post_decline_comment n no_url_message "" = Except.ok ()) :
    process_issue env { number := n, title := title, body := none }
      = process_issue env { number := n, title := title, body := some "" }
    ∧ process_issue env { number := n, title := title, body := none }
      = (Except.ok (), [Effect.checkPr n, Effect.checkComment n,
          Effect.postDecline n no_url_message ""]) := by
  constructor
  · rfl
  · exact c2_missing_url_decline env { number := n, title := title, body := none }
      h1 h2 (Or.inl h3) h4

/-- Witness for C9: issue 2 with an absent body is declined for a missing
document URL. -/
theorem c9_absent_body_witness :
    process_issue env_nourl { number := 2, title := "t", body := none }
      = process_issue env_nourl { number := 2, title := "t", body := some "" }
    ∧ process_issue env_nourl { number := 2, title := "t", body := none }
      = (Except.ok (), [Effect.checkPr 2, Effect.checkComment 2,
          Effect.postDecline 2 no_url_message ""]) :=
  c9_absent_body env_nourl 2 "t" rfl rfl rfl rfl

/-- C10: the change-request existence check is always the first effect, and
when it reports an existing change request the prior-comment check is never
queried. -/
theorem c10_check_order (env : Env) (issue : Issue) :
    (∃ t, (process_issue env issue).2 = Effect.checkPr issue.number :: t)
    ∧ (env.pr_for_issue_exists issue.number = Except.ok true →
        Effect.checkComment issue.number ∉ (process_issue env issue).2) := by
  constructor
  · simp only [process_issue, post_decline_step]
    repeat' (first | exact ⟨_, rfl⟩ | split)
  · intro h
    simp [process_issue, h]

/-- Witness for C10: with a linked change request on issue 1 the trace opens
with the change-request check and never holds the comment check. -/
theorem c10_check_order_witness :
    (∃ t, (process_issue env_pr issue1).2 = Effect.checkPr 1 :: t)
    ∧ Effect.checkComment 1 ∉ (process_issue env_pr issue1).2 :=
  ⟨(c10_check_order env_pr issue1).1, (c10_check_order env_pr issue1).2 rfl⟩

/-! ### The optional smoothing step -/

/-- C7: when the feature-switches field does not contain the smoothing
marker, the transform step is the identity on any line list, and processing
the issue never invokes the smoothing transform. -/
theorem c7_no_smoothing_noop (env : Env) (issue : Issue) (lines : List Line)
    (h : issue_enable_smoothing (env.parse_issue_body (issue.body.getD "")) = false) :
    transform_step env.apply_smoothing
        (issue_smoothing_options env (env.parse_issue_body (issue.body.getD ""))) lines
      = lines
    ∧ ∀ l o, Effect.smoothCall l o ∉ (process_issue env issue).2 := by
  have hnone :
      issue_smoothing_options env (env.parse_issue_body (issue.body.getD "")) = none := by
    simp [issue_smoothing_options, resolve_smoothing_options, h]
  constructor
  · simp [transform_step, hnone]
  · intro l o
    simp only [process_issue, post_decline_step, hnone]
    repeat' split
    all_goals simp

/-- Witness for C7: the body of issue 1 has no feature-switches field, so the
transform step leaves `[lineA]` unchanged and the `env0` pipeline never emits
a smoothing call. -/
theorem c7_no_smoothing_noop_witness :
    transform_step env0.apply_smoothing
        (issue_smoothing_options env0 (env0.parse_issue_body (issue1.body.getD ""))) [lineA]
      = [lineA]
    ∧ Effect.smoothCall [lineA]
        { factor := 0.15, duration_threshold_ms := 50, gap_threshold_ms := 100,
          smoothing_iterations := 5 } ∉ (process_issue env0 issue1).2 :=
  have h := c7_no_smoothing_noop env0 issue1 [lineA] (by decide)
  ⟨h.1, h.2 [lineA] _⟩

/-! ### The validation decline -/

/-- C5: when validation reports a non-empty list of errors, the outcome is a
decline, not an error: exactly one decline comment is recorded, its message
carries every error on its own bullet line, the original document content is
attached, and neither generation nor a change request happens. -/
theorem c5_validation_decline (env : Env) (issue : Issue) (u c : String)
    (pd : ParsedData) (errors : List String)
    (h1 : env.pr_for_issue_exists issue.number = Except.ok false)
    (h2 : env.has_bot_commented issue.number = Except.ok false)
    (h3 : lookup (env.parse_issue_body (issue.body.getD "")) url_field = some u)
    (h4 : u ≠ "")
    (h5 : env.http_get u = Except.ok c)
    (h6 : env.parse_ttml_content c = Except.ok pd)
    (h7 : env.validate_lyrics_and_metadata
        (transform_step env.apply_smoothing
          (issue_smoothing_options env (env.parse_issue_body (issue.body.getD "")))
          (sort_by_key Line.start_ms pd.lines))
        (env.load_metadata pd.raw_metadata) = Except.error errors)
    (_h8 : errors ≠ [])
    (h9 : env.post_decline_comment issue.number
        ("文件验证失败:\n- " ++ String.intercalate "\n- " errors) c = Except.ok ()) :
    (process_issue env issue).1 = Except.ok ()
    ∧ decline_calls (process_issue env issue).2
      = [(issue.number, "文件验证失败:\n- " ++ String.intercalate "\n- " errors, c)]
    ∧ (∀ e ∈ errors, ∃ p q,
        "文件验证失败:\n- " ++ String.intercalate "\n- " errors
          = p ++ ("\n- " ++ e) ++ q)
    ∧ generate_calls (process_issue env issue).2 = []
    ∧ success_calls (process_issue env issue).2 = [] := by
  have hbul : ∀ e ∈ errors, ∃ p q,
      "文件验证失败:\n- " ++ String.intercalate "\n- " errors
        = p ++ ("\n- " ++ e) ++ q :=
    fun e he => validation_message_bullet errors e he
  rcases hso : issue_smoothing_options env (env.parse_issue_body (issue.body.getD ""))
    with _ | opts
  · simp only [hso, transform_step] at h7
    refine ⟨?_, ?_, hbul, ?_, ?_⟩ <;>
      simp [process_issue, post_decline_step, transform_step, h1, h2, h3, h4, h5, h6,
        hso, h7, h9, decline_calls, generate_calls, success_calls]
  · simp only [hso, transform_step] at h7
    refine ⟨?_, ?_, hbul, ?_, ?_⟩ <;>
      simp [process_issue, post_decline_step, transform_step, h1, h2, h3, h4, h5, h6,
        hso, h7, h9, decline_calls, generate_calls, success_calls]

/-- Witness for C5: `env_valfail` reports two validation errors on issue 1,
and the decline message carries both on bullet lines. -/
theorem c5_validation_decline_witness :
    (process_issue env_valfail issue1).1 = Except.ok ()
    ∧ decline_calls (process_issue env_valfail issue1).2
      = [(1, "文件验证失败:\n- " ++ String.intercalate "\n- " ["错误一", "错误二"], "<tt/>")]
    ∧ (∃ p q, "文件验证失败:\n- " ++ String.intercalate "\n- " ["错误一", "错误二"]
        = p ++ ("\n- " ++ "错误一") ++ q)
    ∧ (∃ p q, "文件验证失败:\n- " ++ String.intercalate "\n- " ["错误一", "错误二"]
        = p ++ ("\n- " ++ "错误二") ++ q)
    ∧ generate_calls (process_issue env_valfail issue1).2 = []
    ∧ success_calls (process_issue env_valfail issue1).2 = [] :=
  have h := c5_validation_decline env_valfail issue1 "http://example.com/a.ttml" "<tt/>"
    pd1 ["错误一", "错误二"] rfl rfl rfl (by decide) rfl rfl rfl (by decide) rfl
  ⟨h.1, h.2.1, h.2.2.1 "错误一" (by simp), h.2.2.1 "错误二" (by simp),
    h.2.2.2.1, h.2.2.2.2⟩

/-! ### Dual generation -/

/-- C6: an issue that reaches the generation step produces its compact and
formatted renderings from the same lines and the same metadata store, with
options that agree on timing mode, auto-splitting flag and punctuation
weight and differ only in the format flag. -/
theorem c6_dual_generation (env : Env) (issue : Issue) (u c s1 s2 : String)
    (pd : ParsedData) (bp : List (String × String)) (L : List Line)
    (M : MetadataStore) (o1 o2 : TtmlGenerationOptions)
    (hbp : env.parse_issue_body (issue.body.getD "") = bp)
    (h1 : env.pr_for_issue_exists issue.number = Except.ok false)
    (h2 : env.has_bot_commented issue.number = Except.ok false)
    (h3 : lookup bp url_field = some u)
    (h4 : u ≠ "")
    (h5 : env.http_get u = Except.ok c)
    (h6 : env.parse_ttml_content c = Except.ok pd)
    (hL : transform_step env.apply_smoothing (issue_smoothing_options env bp)
        (sort_by_key Line.start_ms pd.lines) = L)
    (hM : env.load_metadata pd.raw_metadata = M)
    (ho1 : o1 = { timing_mode := issue_timing_mode bp, format := false,
                  auto_word_splitting := issue_auto_split bp,
                  punctuation_weight := issue_punctuation_weight env bp })
    (ho2 : o2 = { timing_mode := issue_timing_mode bp, format := true,
                  auto_word_splitting := issue_auto_split bp,
                  punctuation_weight := issue_punctuation_weight env bp })
    (h7 : env.validate_lyrics_and_metadata L M = Except.ok ())
    (hg1 : env.generate_ttml L M o1 = Except.ok s1)
    (hg2 : env.generate_ttml L M o2 = Except.ok s2) :
    generate_calls (process_issue env issue).2 = [(L, M, o1), (L, M, o2)]
    ∧ o1.timing_mode = o2.timing_mode
    ∧ o1.auto_word_splitting = o2.auto_word_splitting
    ∧ o1.punctuation_weight = o2.punctuation_weight
    ∧ o1.format = false
    ∧ o2.format = true := by
  subst hbp hL hM ho1 ho2
  refine ⟨?_, rfl, rfl, rfl, rfl, rfl⟩
  rcases hso : issue_smoothing_options env (env.parse_issue_body (issue.body.getD ""))
    with _ | opts
  · simp only [hso, transform_step] at h7 hg1 hg2
    simp [process_issue, post_decline_step, transform_step, h1, h2, h3, h4, h5, h6,
      hso, h7, hg1, hg2, generate_calls]
    split <;> simp [generate_calls]
  · simp only [hso, transform_step] at h7 hg1 hg2
    simp [process_issue, post_decline_step, transform_step, h1, h2, h3, h4, h5, h6,
      hso, h7, hg1, hg2, generate_calls]
    split <;> simp [generate_calls]

/-- Witness for C6: on `env0` the success path on issue 1 records exactly
two generation calls over the same lines and metadata, differing only in
the format flag. -/
theorem c6_dual_generation_witness :
    generate_calls (process_issue env0 issue1).2
      = [(sort_by_key Line.start_ms pd1.lines, [("musicName", ["Song"])],
          { timing_mode := TtmlTimingMode.Word, format := false,
            auto_word_splitting := false, punctuation_weight := 0.3 }),
         (sort_by_key Line.start_ms pd1.lines, [("musicName", ["Song"])],
          { timing_mode := TtmlTimingMode.Word, format := true,
            auto_word_splitting := false, punctuation_weight := 0.3 })]
    ∧ ({ timing_mode := TtmlTimingMode.Word, format := false,
         auto_word_splitting := false,
         punctuation_weight := 0.3 } : TtmlGenerationOptions).timing_mode
      = ({ timing_mode := TtmlTimingMode.Word, format := true,
           auto_word_splitting := false,
           punctuation_weight := 0.3 } : TtmlGenerationOptions).timing_mode
    ∧ ({ timing_mode := TtmlTimingMode.Word, format := false,
         auto_word_splitting := false,
         punctuation_weight := 0.3 } : TtmlGenerationOptions).auto_word_splitting
      = ({ timing_mode := TtmlTimingMode.Word, format := true,
           auto_word_splitting := false,
           punctuation_weight := 0.3 } : TtmlGenerationOptions).auto_word_splitting
    ∧ ({ timing_mode := TtmlTimingMode.Word, format := false,
         auto_word_splitting := false,
         punctuation_weight := 0.3 } : TtmlGenerationOptions).punctuation_weight
      = ({ timing_mode := TtmlTimingMode.Word, format := true,
           auto_word_splitting := false,
           punctuation_weight := 0.3 } : TtmlGenerationOptions).punctuation_weight
    ∧ ({ timing_mode := TtmlTimingMode.Word, format := false,
         auto_word_splitting := false,
         punctuation_weight := 0.3 } : TtmlGenerationOptions).format = false
    ∧ ({ timing_mode := TtmlTimingMode.Word, format := true,
         auto_word_splitting := false,
         punctuation_weight := 0.3 } : TtmlGenerationOptions).format = true :=
  by
  have hauto : issue_auto_split [(url_field, "http://example.com/a.ttml")] = false := by
    decide
  have htm : issue_timing_mode [(url_field, "http://example.com/a.ttml")]
      = TtmlTimingMode.Word := by decide
  have hw : issue_punctuation_weight env0 [(url_field, "http://example.com/a.ttml")]
      = 0.3 := by
    simp [issue_punctuation_weight, resolve_punctuation_weight, hauto]
  exact c6_dual_generation env0 issue1 "http://example.com/a.ttml" "<tt/>" "compact"
    "formatted" pd1 [(url_field, "http://example.com/a.ttml")]
    (sort_by_key Line.start_ms pd1.lines) [("musicName", ["Song"])]
    { timing_mode := TtmlTimingMode.Word, format := false,
      auto_word_splitting := false, punctuation_weight := 0.3 }
    { timing_mode := TtmlTimingMode.Word, format := true,
      auto_word_splitting := false, punctuation_weight := 0.3 }
    rfl rfl rfl rfl (by decide) rfl rfl rfl rfl
    (by simp [htm, hauto, hw]) (by simp [htm, hauto, hw]) rfl rfl rfl
